import Mathlib

/-!
Verification development for the data-ingestion crawl-orchestration service.

The definitions below are shallow embeddings of the service's Python source:

* `parseBrightdataResponse` and its four tiers embed
  `brightdata/handlers/download_handler.py` (`_parse_brightdata_response`,
  `_store_failed_response_for_debug`, `download_snapshot`'s 200-path).
* `backgroundPollAndDownload` embeds the background polling loop of `app.py`.
* `ServiceState`, `storeCrawlMetadata`, `updateCrawlStatus`,
  `getCrawlMetadata` embed the metadata persistence of
  `handlers/crawl_handler.py` (BigQuery table modelled as an insert-ordered
  row list, the local fallback store as an association list).
* `brightdataDownloadData` / `apifyDownloadData` embed the two provider
  adapters' download operations (`api_clients/*.py`).
* `facebookExtractMediaInfo` / `tiktokExtractMediaInfo` embed the platform
  handlers' media extraction; a result of `none` models a raised Python
  exception (e.g. `AttributeError` from calling `.get` on a non-dict).
* `triggerCrawl` embeds `CrawlHandler.trigger_crawl` at the level of the
  returned result dictionary plus a flag recording whether the provider
  trigger endpoint was invoked.

Python JSON values are modelled by the inductive `Json`; numeric literals
are restricted to integers (no input considered here uses floats), and
`str.isspace` is modelled on the four ASCII whitespace characters that the
relevant payloads can contain.
-/

namespace Ingest

/-- Characters that the scanner treats as text rather than code. -/
def lbrace : Char := Char.ofNat 123

def rbrace : Char := Char.ofNat 125

def quoteChar : Char := Char.ofNat 34

def backslashChar : Char := Char.ofNat 92

/-- Whitespace test used for `str.isspace` / `str.strip` / JSON skipping. -/
def isWs (c : Char) : Bool := c = ' ' || c = '\t' || c = '\n' || c = '\r'

/-- Drop leading whitespace from a character list. -/
def dropWs : List Char → List Char
  | [] => []
  | c :: rest => if isWs c then dropWs rest else c :: rest

/-- Python `str.strip()`: whitespace removed from both ends. -/
def stripWs (cs : List Char) : List Char := (dropWs ((dropWs cs).reverse)).reverse

/-- JSON values as produced by Python's `json` module on the payloads
considered here.  Object fields keep their textual order. -/
inductive Json where
  | null
  | bool (b : Bool)
  | num (n : Int)
  | str (s : String)
  | arr (elems : List Json)
  | obj (fields : List (String × Json))

/-- `isinstance(x, dict)`. -/
def isDict : Json → Bool
  | Json.obj _ => true
  | _ => false

/-- Python truthiness of a JSON value. -/
def truthy : Json → Bool
  | Json.null => false
  | Json.bool b => b
  | Json.num n => !(n = 0)
  | Json.str s => !(s = "")
  | Json.arr xs => !xs.isEmpty
  | Json.obj fs => !fs.isEmpty

/-- First binding of a key in a field list (`dict` lookup). -/
def dictGet (fields : List (String × Json)) (k : String) : Option Json :=
  match fields with
  | [] => none
  | (k2, v) :: rest => if k2 = k then some v else dictGet rest k

/-- JSON string-escape table (the escapes the relevant payloads can use). -/
def escChar (c : Char) : Option Char :=
  if c = quoteChar then some quoteChar
  else if c = backslashChar then some backslashChar
  else if c = '/' then some '/'
  else if c = 'n' then some '\n'
  else if c = 't' then some '\t'
  else if c = 'r' then some '\r'
  else if c = 'b' then some (Char.ofNat 8)
  else if c = 'f' then some (Char.ofNat 12)
  else none

/-- Body of a JSON string literal, after the opening quote. -/
def parseStrBody : List Char → List Char → Option (String × List Char)
  | [], _ => none
  | c :: rest, acc =>
    if c = quoteChar then some (String.mk acc.reverse, rest)
    else if c = backslashChar then
      match rest with
      | [] => none
      | e :: rest2 =>
        match escChar e with
        | some ec => parseStrBody rest2 (ec :: acc)
        | none => none
    else parseStrBody rest (c :: acc)

/-- Consume a run of decimal digits, accumulating their value. -/
def takeDigits : List Char → Nat → (Nat × List Char)
  | [], acc => (acc, [])
  | c :: rest, acc =>
    if c.isDigit then takeDigits rest (acc * 10 + (c.toNat - 48))
    else (acc, c :: rest)

/-- JSON number literal (integers, optionally negative). -/
def parseNum (cs : List Char) : Option (Json × List Char) :=
  match cs with
  | [] => none
  | c :: rest =>
    if c = '-' then
      match rest with
      | d :: _ =>
        if d.isDigit then
          let p := takeDigits rest 0
          some (Json.num (-(p.1 : Int)), p.2)
        else none
      | [] => none
    else if c.isDigit then
      let p := takeDigits cs 0
      some (Json.num (p.1 : Int), p.2)
    else none

mutual

/-- Decode one JSON value at the head of the input (no leading-whitespace
skipping, matching `json.JSONDecoder.raw_decode`).  Fuel bounds recursion. -/
def parseJsonVal : Nat → List Char → Option (Json × List Char)
  | 0, _ => none
  | fuel + 1, cs =>
    match cs with
    | [] => none
    | c :: rest =>
      if c = quoteChar then
        match parseStrBody rest [] with
        | some (s, r) => some (Json.str s, r)
        | none => none
      else if c = '[' then
        let cs2 := dropWs rest
        match cs2 with
        | ']' :: r2 => some (Json.arr [], r2)
        | _ => parseArrLoop fuel cs2 []
      else if c = lbrace then
        let cs2 := dropWs rest
        if cs2.head? = some rbrace then some (Json.obj [], cs2.tail)
        else parseObjLoop fuel cs2 []
      else if c = 'n' then
        match rest with
        | 'u' :: 'l' :: 'l' :: r => some (Json.null, r)
        | _ => none
      else if c = 't' then
        match rest with
        | 'r' :: 'u' :: 'e' :: r => some (Json.bool true, r)
        | _ => none
      else if c = 'f' then
        match rest with
        | 'a' :: 'l' :: 's' :: 'e' :: r => some (Json.bool false, r)
        | _ => none
      else if c = '-' || c.isDigit then parseNum cs
      else none

/-- Elements of a JSON array after the opening bracket (non-empty case). -/
def parseArrLoop : Nat → List Char → List Json → Option (Json × List Char)
  | 0, _, _ => none
  | fuel + 1, cs, acc =>
    match parseJsonVal fuel cs with
    | none => none
    | some (v, r) =>
      match dropWs r with
      | ']' :: r3 => some (Json.arr (acc ++ [v]), r3)
      | ',' :: r3 => parseArrLoop fuel (dropWs r3) (acc ++ [v])
      | _ => none

/-- Members of a JSON object after the opening brace (non-empty case). -/
def parseObjLoop : Nat → List Char → List (String × Json) → Option (Json × List Char)
  | 0, _, _ => none
  | fuel + 1, cs, acc =>
    match cs with
    | [] => none
    | c :: rest =>
      if c = quoteChar then
        match parseStrBody rest [] with
        | some (key, r) =>
          match dropWs r with
          | ':' :: r3 =>
            match parseJsonVal fuel (dropWs r3) with
            | some (v, r4) =>
              let r5 := dropWs r4
              if r5.head? = some rbrace then
                some (Json.obj (acc ++ [(key, v)]), r5.tail)
              else
                match r5 with
                | ',' :: r6 => parseObjLoop fuel (dropWs r6) (acc ++ [(key, v)])
                | _ => none
            | none => none
          | _ => none
        | none => none
      else none

end

/-- Fuel that always suffices for `parseJsonVal` on the given input. -/
def jsonFuel (cs : List Char) : Nat := 2 * cs.length + 4

/-- `json.JSONDecoder.raw_decode(s, idx)`: decode one value starting at
`idx`, returning the value and the absolute index just past it. -/
def rawDecode (s : List Char) (idx : Nat) : Option (Json × Nat) :=
  match parseJsonVal (jsonFuel (s.drop idx)) (s.drop idx) with
  | some (v, rest) => some (v, s.length - rest.length)
  | none => none

/-- `json.loads`: one value, with only whitespace allowed around it. -/
def jsonLoads (cs : List Char) : Option Json :=
  match parseJsonVal (jsonFuel cs) (dropWs cs) with
  | some (v, rest) => if (dropWs rest).isEmpty then some v else none
  | none => none

/-- Index of the first non-whitespace character at or after `i`
(the inner `while ... isspace()` loop of the concatenated-object scan). -/
def wsRun : List Char → Nat
  | [] => 0
  | c :: rest => if isWs c then wsRun rest + 1 else 0

def skipWsIdx (s : List Char) (i : Nat) : Nat := i + wsRun (s.drop i)

/-- Offset of the first occurrence of `c` in a character list. -/
def findOffset : List Char → Char → Option Nat
  | [], _ => none
  | x :: rest, c => if x = c then some 0 else (findOffset rest c).map (· + 1)

/-- Python `str.find(c, i)`, with `none` for Python's `-1`. -/
def findCharFrom (s : List Char) (c : Char) (i : Nat) : Option Nat :=
  (findOffset (s.drop i) c).map (· + i)

/-- The concatenated-object scan of `_parse_brightdata_response` (second
tier).  On a successful decode the source advances with `idx += end_idx`,
where `raw_decode` returns an absolute end index; that `+=` is kept here
exactly as written.  On a failed decode it resumes at the next brace after
the current position.  Fuel bounds the loop; the index grows strictly each
iteration, so `s.length + 2` iterations always suffice. -/
def scanConcatAux (s : List Char) : Nat → Nat → List Json → List Json
  | 0, _, acc => acc
  | fuel + 1, idx, acc =>
    if s.length ≤ idx then acc
    else
      let i := skipWsIdx s idx
      if s.length ≤ i then acc
      else
        match rawDecode s i with
        | some (v, endIdx) => scanConcatAux s fuel (i + endIdx) (acc ++ [v])
        | none =>
          match findCharFrom s lbrace (i + 1) with
          | some j => scanConcatAux s fuel j acc
          | none => acc

def scanConcat (s : List Char) : List Json := scanConcatAux s (s.length + 2) 0 []

/-- Split on newline characters (Python `str.split('\n')`). -/
def splitOnNl : List Char → List (List Char)
  | [] => [[]]
  | c :: rest =>
    if c = '\n' then [] :: splitOnNl rest
    else
      match splitOnNl rest with
      | l :: ls => (c :: l) :: ls
      | [] => [[c]]

/-- Third tier of `_parse_brightdata_response`: parse each stripped line
that begins with a brace or bracket, silently discarding failures. -/
def jsonLines (s : List Char) : List Json :=
  (splitOnNl s).filterMap fun rawLine =>
    let line := stripWs rawLine
    match line.head? with
    | some c => if c = lbrace || c = '[' then jsonLoads line else none
    | none => none

/-- First tier: whole-document parse; an array becomes the record list,
any other value becomes a one-element list. -/
def tierWholeDoc (s : List Char) : Option (List Json) :=
  match jsonLoads s with
  | some (Json.arr xs) => some xs
  | some v => some [v]
  | none => none

/-- Second tier's result after the dictionary filter. -/
def tierConcatScan (s : List Char) : List Json := (scanConcat s).filter isDict

/-- Third tier's result after the dictionary filter. -/
def tierJsonLines (s : List Char) : List Json := (jsonLines s).filter isDict

/-- Fourth tier: whole-document parse of the suffix starting at the first
bracket (preferred) or brace found anywhere in the text. -/
def tierPrefixTrim (s : List Char) : Option (List Json) :=
  let startMarker :=
    match findCharFrom s '[' 0 with
    | some i => some i
    | none => findCharFrom s lbrace 0
  match startMarker with
  | some i =>
    match jsonLoads (s.drop i) with
    | some (Json.arr xs) => some xs
    | some v => some [v]
    | none => none
  | none => none

/-- `_parse_brightdata_response`: the four tiers in order, each later tier
attempted only if the previous produced nothing; `none` models the
source's `return None` (total parse failure). -/
def parseBrightdataResponse (s : List Char) : Option (List Json) :=
  match tierWholeDoc s with
  | some xs => some xs
  | none =>
    if (tierConcatScan s).isEmpty then
      if (tierJsonLines s).isEmpty then tierPrefixTrim s
      else some (tierJsonLines s)
    else some (tierConcatScan s)

/-- Count occurrences of a character (Python `str.count`). -/
def countChar (s : List Char) (c : Char) : Nat := (s.filter (fun x => x = c)).length

/-- Does the text contain a closing brace immediately followed by an
opening brace (the concatenation diagnostic of the debug store)? -/
def hasBraceConcat : List Char → Bool
  | [] => false
  | c :: rest =>
    match rest with
    | c2 :: _ => if c = rbrace && c2 = lbrace then true else hasBraceConcat rest
    | [] => false

/-- The debug artefact written by `_store_failed_response_for_debug`:
snapshot id, full raw content, its length, and the brace diagnostics. -/
structure DebugRecord where
  snapshotId : String
  content : List Char
  length : Nat
  containsConcat : Bool
  balancedBraces : Bool

/-- Result of `download_snapshot`'s 200-branch. -/
inductive SnapshotResult where
  | ok (data : List Json)
  | err (msg : String)

def storeFailedResponseForDebug (sid : String) (raw : List Char) : DebugRecord :=
  { snapshotId := sid
  , content := raw
  , length := raw.length
  , containsConcat := hasBraceConcat raw
  , balancedBraces := countChar raw lbrace == countChar raw rbrace }

/-- The 200-path of `download_snapshot`: parse the raw body; on total
parse failure store the raw payload for debugging and return an error
response, otherwise return the parsed records. -/
def downloadSnapshotBody (sid : String) (raw : List Char) :
    SnapshotResult × Option DebugRecord :=
  match parseBrightdataResponse raw with
  | none =>
    (SnapshotResult.err "Failed to parse BrightData response as JSON",
      some (storeFailedResponseForDebug sid raw))
  | some data => (SnapshotResult.ok data, none)

/-! ### Background polling loop (`app.py`, `background_poll_and_download`)

One poll attempt is summarised by what the loop body observes for it:
the metadata lookup can come back empty, the status-check line can (as
written) bind an error string, readiness, or a pending state, or the
attempt can raise.  `pollLoop` below is the loop body's branch structure
exactly as the source writes it.

What a real run observes is narrower: the status-check line is
`crawl_handler.brightdata_client.poll_crawl_status(snapshot_id)`, and
`crawl_handler.brightdata_client` is wired (handlers/crawl_handler.py) to
`api_clients.brightdata_client.BrightDataClient`, which defines
`trigger_crawl` / `check_status` / `download_data` but no
`poll_crawl_status` — that method exists only on the unused legacy facade
`brightdata/client.py`.  So on every attempt with metadata present the
call raises `AttributeError` inside the loop's `try` before the provider
is ever contacted; the `statusErr` / `ready` / `pending` branches are
dead code, and `wiredPollAttempt` gives the outcome a real attempt
produces.  Events published by the loop are modelled by `PollEvent`;
message texts other than the provider/exception string are abstracted to
fixed strings, since only the stage and outcome matter here. -/

inductive Attempt where
  | missingMeta
  | statusErr (msg : String)
  | ready
  | pending
  | raised (msg : String)
deriving DecidableEq, Repr

inductive PollEvent where
  | ingestionCompleted
  | crawlFailed (stage : String) (msg : String)
deriving DecidableEq, Repr

/-- What the provider's status endpoint would answer if it were asked. -/
inductive ProviderPollReply where
  | errorReply (msg : String)
  | readyReply
  | pendingReply
deriving DecidableEq, Repr

/-- The `while poll_count < max_polls` loop of
`background_poll_and_download`.  `fuel` is the number of remaining
iterations (`maxPolls - pollCount`), `pollCount` the number of attempts
already made; the result is the list of events published inside the loop
together with the final value of `poll_count`.  Branches as written in
the source: returned status errors break with a `brightdata_error`
failure only on the final five attempts (`poll_count >= max_polls - 5`);
readiness triggers the download; raised exceptions break with a
`polling_exception` failure only on the final three.  In a real run only
the `missingMeta` and `raised` branches are reachable (see
`wiredPollAttempt`). -/
def pollLoop (script : Nat → Attempt) (dlOk : Bool) (maxPolls : Nat) :
    Nat → Nat → List PollEvent × Nat
  | 0, pollCount => ([], pollCount)
  | fuel + 1, pollCount =>
    let k := pollCount + 1
    match script k with
    | Attempt.missingMeta =>
      ([PollEvent.crawlFailed "metadata_lookup" "Crawl metadata not found"], k)
    | Attempt.statusErr m =>
      if maxPolls - 5 ≤ k then ([PollEvent.crawlFailed "brightdata_error" m], k)
      else pollLoop script dlOk maxPolls fuel k
    | Attempt.ready =>
      if dlOk then ([PollEvent.ingestionCompleted], k)
      else ([PollEvent.crawlFailed "download_failure" "Download failed"], k)
    | Attempt.pending => pollLoop script dlOk maxPolls fuel k
    | Attempt.raised m =>
      if maxPolls - 3 ≤ k then ([PollEvent.crawlFailed "polling_exception" m], k)
      else pollLoop script dlOk maxPolls fuel k

/-- The whole background task: run the loop, then publish a
`polling_timeout` failure if the attempt budget was used up
(`if poll_count >= max_polls`). -/
def backgroundPollAndDownload (script : Nat → Attempt) (dlOk : Bool)
    (maxPolls : Nat) : List PollEvent :=
  let r := pollLoop script dlOk maxPolls maxPolls 0
  r.1 ++ (if maxPolls ≤ r.2 then
    [PollEvent.crawlFailed "polling_timeout" "Polling timeout"] else [])

/-- The exception every status-check attempt raises: the wired client has
no `poll_crawl_status` attribute. -/
def pollAttrError : String :=
  "AttributeError: BrightDataClient object has no attribute poll_crawl_status"

/-- One attempt of app.py's loop as it actually executes: if the metadata
lookup succeeds, the status-check line raises `AttributeError` (the wired
client lacks `poll_crawl_status`), regardless of what the provider would
have replied — the provider is never observed. -/
def wiredPollAttempt (metaPresent : Bool) (_providerReply : ProviderPollReply) :
    Attempt :=
  if metaPresent then Attempt.raised pollAttrError else Attempt.missingMeta

/-- A real background run of app.py's loop: the attempt script is the
wired one, the provider's would-be replies given by `providerScript`. -/
def backgroundPollRun (metaPresent : Bool)
    (providerScript : Nat → ProviderPollReply) (dlOk : Bool)
    (maxPolls : Nat) : List PollEvent :=
  backgroundPollAndDownload
    (fun k => wiredPollAttempt metaPresent (providerScript k)) dlOk maxPolls

/-! ### Crawl metadata persistence (`handlers/crawl_handler.py`)

The BigQuery `crawl_metadata` table is insert-only; it is modelled as a
list of rows in insertion order.  The in-memory fallback
`local_metadata_store` is an association list from crawl id to a local
entry; entries created by a status update have no snapshot id, matching
the empty dict the source creates. -/

structure MetaRow where
  crawlId : String
  snapshotId : String
  status : String
  createdAt : Nat
  errorMessage : Option String
deriving DecidableEq, Repr

structure LocalMeta where
  snapshotId : Option String
  status : Option String
  errorMessage : Option String
deriving DecidableEq, Repr

structure ServiceState where
  table : List MetaRow
  localStore : List (String × LocalMeta)
deriving DecidableEq, Repr

def emptyState : ServiceState := { table := [], localStore := [] }

def lookupLocal : List (String × LocalMeta) → String → Option LocalMeta
  | [], _ => none
  | (k, v) :: rest, cid => if k = cid then some v else lookupLocal rest cid

/-- `_store_crawl_metadata`: insert the initial `triggered` row into the
warehouse; on warehouse failure fall back to the local store. -/
def storeCrawlMetadata (st : ServiceState) (cid sid : String) (ts : Nat)
    (bigqueryOk : Bool) : ServiceState :=
  if bigqueryOk then
    { st with table := st.table ++
        [{ crawlId := cid, snapshotId := sid, status := "triggered"
         , createdAt := ts, errorMessage := none }] }
  else
    { st with localStore := st.localStore ++
        [(cid, { snapshotId := some sid, status := some "triggered"
               , errorMessage := none })] }

/-- Synthetic snapshot id used by `_update_crawl_status` when the crawl is
not in the local store (`f"status_update_{timestamp}"`). -/
def syntheticSnapshotId (ts : Nat) : String := "status_update_" ++ toString ts

/-- The local-store half of `_update_crawl_status`: create the entry if
absent, then set status (and error message when one is given). -/
def setLocalStatus : List (String × LocalMeta) → String → String →
    Option String → List (String × LocalMeta)
  | [], cid, status, err =>
    [(cid, { snapshotId := none, status := some status, errorMessage := err })]
  | (k, v) :: rest, cid, status, err =>
    if k = cid then
      (k, { v with
              status := some status,
              errorMessage :=
                (match err with
                  | some m => some m
                  | none => v.errorMessage) }) :: rest
    else (k, v) :: setLocalStatus rest cid status err

/-- `_update_crawl_status`: append a new status row (never mutate an
existing one); the row's snapshot id comes from the local store when the
crawl is present there and is the synthetic placeholder otherwise.  With
`bigqueryOk = false` the warehouse insert fails and only the local store
is updated. -/
def updateCrawlStatus (st : ServiceState) (cid status : String)
    (err : Option String) (ts : Nat) (bigqueryOk : Bool) : ServiceState :=
  let sid :=
    match lookupLocal st.localStore cid with
    | some m => m.snapshotId.getD (syntheticSnapshotId ts)
    | none => syntheticSnapshotId ts
  { table :=
      if bigqueryOk then
        st.table ++ [{ crawlId := cid, snapshotId := sid, status := status
                     , createdAt := ts, errorMessage := err }]
      else st.table
  , localStore := setLocalStatus st.localStore cid status err }

/-- The view `_get_crawl_metadata` returns. -/
structure CrawlMetaView where
  snapshotId : Option String
  status : Option String
deriving DecidableEq, Repr

/-- `_get_crawl_metadata`: the warehouse query is
`SELECT ... WHERE crawl_id = @crawl_id LIMIT 1` with no ORDER BY, so it
returns an arbitrary matching row; BigQuery guarantees no order, and the
embedding fixes the insertion-order choice (the first matching row).
Only when no warehouse row matches does the local fallback answer. -/
def getCrawlMetadata (st : ServiceState) (cid : String) : Option CrawlMetaView :=
  match (st.table.filter (fun r => r.crawlId = cid)).head? with
  | some r => some { snapshotId := some r.snapshotId, status := some r.status }
  | none =>
    match lookupLocal st.localStore cid with
    | some m => some { snapshotId := m.snapshotId, status := m.status }
    | none => none

/-- The most-recently-timestamped status row of a crawl (the event-sourced
"current status" projection; later rows win timestamp ties, matching
append order). -/
def latestRow (table : List MetaRow) (cid : String) : Option MetaRow :=
  (table.filter (fun r => r.crawlId = cid)).foldl
    (fun acc r =>
      match acc with
      | none => some r
      | some b => if b.createdAt ≤ r.createdAt then some r else some b)
    none

/-! ### Provider adapters' download operations (`api_clients/*.py`) -/

inductive DownloadOutcome where
  | payload (data : List Json)
  | clientError (msg : String)

/-- The readiness mapping of `BrightDataClient.check_status`. -/
def brightdataIsReady (rawStatus : String) : Bool :=
  rawStatus = "ready" || rawStatus = "completed"

/-- The JSONL parse inside `BrightDataClient.download_data`: strip the
body, split on newlines, parse each non-blank line, skip failures. -/
def parseJsonlText (raw : List Char) : List Json :=
  (splitOnNl (stripWs raw)).filterMap fun line =>
    if (stripWs line).isEmpty then none else jsonLoads line

/-- `BrightDataClient.download_data`: the readiness state of the snapshot
is not consulted (the source skips the status check and goes straight to
the snapshot endpoint); a 200 response yields the parsed JSONL payload. -/
def brightdataDownloadData (rawStatus : String) (httpOk : Bool)
    (body : List Char) : DownloadOutcome :=
  if httpOk then DownloadOutcome.payload (parseJsonlText body)
  else DownloadOutcome.clientError "Failed to download data"

/-- `ApifyAPIClient.download_data`: re-checks the run status and fails
unless it is `SUCCEEDED` and a dataset id is available. -/
def apifyDownloadData (runStatus : String) (datasetId : Option String)
    (items : List Json) : DownloadOutcome :=
  if !(runStatus = "SUCCEEDED") then
    DownloadOutcome.clientError ("Job not completed yet. Current status: " ++ runStatus)
  else
    match datasetId with
    | none => DownloadOutcome.clientError "No dataset available for this job"
    | some _ => DownloadOutcome.payload items

/-! ### Status endpoint (`app.py`, `get_crawl_status`) -/

structure StatusResponse where
  crawlId : String
  snapshotId : String
  status : String
  readyForDownload : Bool
  errorMessage : Option String
deriving DecidableEq, Repr

/-- `get_crawl_status`: read the crawl metadata, poll the provider on the
stored snapshot id, and assemble a normalized view.  The returned triple
carries the response (`none` for the 404/500 paths), the service state
after the call, and the events published by it. -/
def getCrawlStatus (st : ServiceState) (cid : String)
    (reply : ProviderPollReply) :
    Option StatusResponse × ServiceState × List PollEvent :=
  match getCrawlMetadata st cid with
  | none => (none, st, [])
  | some mv =>
    match mv.snapshotId with
    | none => (none, st, [])
    | some sid =>
      let resp :=
        match reply with
        | ProviderPollReply.errorReply m =>
          { crawlId := cid, snapshotId := sid, status := "error"
          , readyForDownload := false, errorMessage := some m }
        | ProviderPollReply.readyReply =>
          { crawlId := cid, snapshotId := sid, status := "ready"
          , readyForDownload := true, errorMessage := none }
        | ProviderPollReply.pendingReply =>
          { crawlId := cid, snapshotId := sid, status := "processing"
          , readyForDownload := false, errorMessage := none }
      (some resp, st, [])

/-! ### Platform media extraction (`platforms/{facebook,tiktok}/handler.py`)

A result of `none` models a raised Python exception. -/

structure MediaInfo where
  hasMedia : Bool
  mediaCount : Nat
  mediaTypes : List Json

def createMediaInfo (hasMedia : Bool) (mediaCount : Nat)
    (mediaTypes : List Json) : MediaInfo :=
  { hasMedia := hasMedia, mediaCount := mediaCount, mediaTypes := mediaTypes }

/-- One element of the Facebook attachments comprehension: the value of a
dictionary attachment's truthy `type` field. -/
def attachmentTypeOf (a : Json) : Option Json :=
  match a with
  | Json.obj afs =>
    let t := (dictGet afs "type").getD (Json.str "")
    if truthy t then some t else none
  | _ => none

/-- `FacebookHandler.extract_media_info`: every potentially-raising
operation in the source is guarded, so the translation is total.  A
truthy list of attachments reports media with the list's length as the
count, regardless of the elements' shapes. -/
def facebookExtractMediaInfo (data : Json) : MediaInfo :=
  match data with
  | Json.obj fs =>
    match (dictGet fs "attachments").getD (Json.arr []) with
    | Json.arr [] => createMediaInfo false 0 []
    | Json.arr (x :: xs) =>
      createMediaInfo true (x :: xs).length ((x :: xs).filterMap attachmentTypeOf)
    | _ => createMediaInfo false 0 []
  | _ => createMediaInfo false 0 []

structure TikTokMediaView where
  hasMedia : Bool
  mediaCount : Nat
  mediaTypes : List Json
  duration : Json
  playCount : Json
  isAd : Json
  videoUrl : Json
  coverImage : Json
  height : Json
  width : Json

/-- `TikTokHandler.extract_media_info`: `videoMeta` defaults to an empty
dict, but the source then calls `.get` on it unconditionally, so any
non-dictionary `videoMeta` value (truthy or not) raises `AttributeError`,
modelled by `none`; likewise a non-dictionary record. -/
def tiktokExtractMediaInfo (data : Json) : Option TikTokMediaView :=
  match data with
  | Json.obj fs =>
    match (dictGet fs "videoMeta").getD (Json.obj []) with
    | Json.obj vfs =>
      let hasVideo := truthy (Json.obj vfs)
      some { hasMedia := hasVideo
           , mediaCount := if hasVideo then 1 else 0
           , mediaTypes := if hasVideo then [Json.str "video"] else []
           , duration := (dictGet vfs "duration").getD (Json.num 0)
           , playCount := (dictGet fs "playCount").getD (Json.num 0)
           , isAd := (dictGet fs "isAd").getD (Json.bool false)
           , videoUrl := (dictGet fs "webVideoUrl").getD Json.null
           , coverImage := (dictGet vfs "coverUrl").getD Json.null
           , height := (dictGet vfs "height").getD Json.null
           , width := (dictGet vfs "width").getD Json.null }
    | _ => none
  | _ => none

/-! ### Platform registry and trigger operation
(`platforms/registry.py`, `platforms/*/handler.py`,
`handlers/crawl_handler.py` `trigger_crawl`)

The registry resolves handler implementations for the Facebook and TikTok
platforms; the YouTube entry registers a profile but has no handler
module, and unknown names resolve to nothing.  Lookup lower-cases the
requested name. -/

inductive PlatformHandler where
  | facebook
  | tiktok
deriving DecidableEq, Repr

/-- Python `str.lower()` (character-wise lowering of the name). -/
def lowerStr (s : String) : String := String.mk (s.data.map Char.toLower)

def getPlatformHandler (name : String) : Option PlatformHandler :=
  let n := lowerStr name
  if n = "facebook" then some PlatformHandler.facebook
  else if n = "tiktok" then some PlatformHandler.tiktok
  else none

/-- Does one character list start with another? -/
def startsWithL : List Char → List Char → Bool
  | _, [] => true
  | [], _ :: _ => false
  | c :: cs, p :: ps => c = p && startsWithL cs ps

/-- Substring containment (Python `in` on strings). -/
def hasSubL : List Char → List Char → Bool
  | [], pat => pat.isEmpty
  | c :: cs, pat => startsWithL (c :: cs) pat || hasSubL cs pat

/-- The language of `FACEBOOK_URL_PATTERN` (case-insensitive, matched at
the start of the stripped URL): `https?://(www\.)?(facebook|fb).com`. -/
def fbUrlStarts : List String :=
  [ "http://facebook.com", "https://facebook.com"
  , "http://www.facebook.com", "https://www.facebook.com"
  , "http://fb.com", "https://fb.com"
  , "http://www.fb.com", "https://www.fb.com" ]

/-- `FacebookHandler.validate_params`: the `url` field must be a
non-empty string matching the Facebook URL pattern. -/
def facebookValidateParams (params : List (String × Json)) : Bool :=
  match (dictGet params "url").getD (Json.str "") with
  | Json.str u =>
    !(u = "") &&
      fbUrlStarts.any (fun p =>
        startsWithL ((stripWs u.data).map Char.toLower) p.data)
  | _ => false

def tiktokRequiredParams : List String := ["url"]

/-- `TikTokHandler.validate_params`: required fields must be present and
truthy; the URL must contain `tiktok.com`, or be a bare `@username` that
names no other platform's domain.  A truthy non-string `url` makes the
source's `'tiktok.com' in url` raise `TypeError`, modelled by `none`. -/
def tiktokValidateParams (params : List (String × Json)) : Option Bool :=
  if tiktokRequiredParams.all (fun f =>
      match dictGet params f with
      | some v => truthy v
      | none => false) then
    match (dictGet params "url").getD (Json.str "") with
    | Json.str u =>
      if u = "" then some false
      else if hasSubL u.data ("tiktok.com").data then some true
      else if startsWithL u.data ['@'] &&
          !hasSubL u.data ("tiktok.com").data &&
          !hasSubL u.data ("instagram.com").data &&
          !hasSubL u.data ("facebook.com").data &&
          !hasSubL u.data ("youtube.com").data then some true
      else some false
    | _ => none
  else some false

/-- Dispatch to the platform handler's `validate_params`; `none` models a
raised exception. -/
def validateParams : PlatformHandler → List (String × Json) → Option Bool
  | PlatformHandler.facebook, params => some (facebookValidateParams params)
  | PlatformHandler.tiktok, params => tiktokValidateParams params

/-- What the provider trigger endpoint would answer if called. -/
inductive ProviderReply where
  | ok (snapshotId : String)
  | failedCall (msg : String)
deriving DecidableEq, Repr

structure TriggerResponse where
  status : String
  message : String
  crawlId : String
  snapshotId : Option String
deriving DecidableEq, Repr

/-- `trigger_crawl` at the level of its returned result dictionary; the
second component records whether the provider trigger endpoint was
invoked.  The crawl id is generated before anything can fail, so every
path (including the catch-all `except`, which maps raised exceptions to
an error dictionary) carries it.  A non-string `platform` value makes
`.lower()` raise, which the catch-all turns into an error result before
any handler or provider interaction. -/
def triggerCrawl (crawlId : String) (params : List (String × Json))
    (provider : ProviderReply) : TriggerResponse × Bool :=
  match (dictGet params "platform").getD (Json.str "facebook") with
  | Json.str pname =>
    let platform := lowerStr pname
    match getPlatformHandler platform with
    | none =>
      ({ status := "error", message := "Unsupported platform: " ++ platform
       , crawlId := crawlId, snapshotId := none }, false)
    | some h =>
      match validateParams h params with
      | some false =>
        ({ status := "error"
         , message := "Invalid parameters for platform: " ++ platform
         , crawlId := crawlId, snapshotId := none }, false)
      | some true =>
        (match provider with
         | ProviderReply.ok sid =>
           ({ status := "success", message := "Crawl triggered successfully"
            , crawlId := crawlId, snapshotId := some sid }, true)
         | ProviderReply.failedCall m =>
           ({ status := "error", message := "Error triggering crawl: " ++ m
            , crawlId := crawlId, snapshotId := none }, true))
      | none =>
        ({ status := "error", message := "Error triggering crawl: TypeError"
         , crawlId := crawlId, snapshotId := none }, false)
  | _ =>
    ({ status := "error", message := "Error triggering crawl: AttributeError"
     , crawlId := crawlId, snapshotId := none }, false)

/-! ### Statement helpers and concrete inputs -/

/-- Is the `attachments` field (defaulted to `[]`) a non-empty list? -/
def attachmentsNonEmptyList (fs : List (String × Json)) : Bool :=
  match (dictGet fs "attachments").getD (Json.arr []) with
  | Json.arr (_ :: _) => true
  | _ => false

/-- Is `videoMeta` absent or an empty dictionary? -/
def videoMetaMissingOrEmpty (fs : List (String × Json)) : Bool :=
  match dictGet fs "videoMeta" with
  | none => true
  | some (Json.obj vfs) => vfs.isEmpty
  | some _ => false

/-- Is `videoMeta` present with a non-dictionary value? -/
def videoMetaNonDict (fs : List (String × Json)) : Bool :=
  match dictGet fs "videoMeta" with
  | some v => !isDict v
  | none => false

/-- Three dictionary-shaped JSON objects concatenated with no whitespace:
`\x7b"a":1\x7d\x7b"b":2\x7d\x7b"c":3\x7d`. -/
def concat3 : List Char := ("\x7b\"a\":1\x7d\x7b\"b\":2\x7d\x7b\"c\":3\x7d").data

/-- A payload that no parser tier can make anything of. -/
def noisePayload : List Char := ("hello").data

/-- A one-line JSONL body: `\x7b"a":1\x7d`. -/
def jsonlBody : List Char := ("\x7b\"a\":1\x7d").data

/-- Provider-side scenario instantiating the claim for budget 10: the
provider's status endpoint would report transient errors on attempts 1..8
(= budget − 2) and readiness from attempt 9 (= budget − 1) on. -/
def claimedProviderScript : Nat → ProviderPollReply := fun j =>
  if j ≤ 8 then ProviderPollReply.errorReply "transient"
  else ProviderPollReply.readyReply

/-- State after a trigger whose warehouse insert succeeded. -/
def stTrig : ServiceState := storeCrawlMetadata emptyState "c1" "snap1" 0 true

/-- `stTrig` after a `completed` status update at a later timestamp. -/
def stDone : ServiceState := updateCrawlStatus stTrig "c1" "completed" none 1 true

/-- `stTrig` after a `downloading` status update at a later timestamp. -/
def stDownloading : ServiceState :=
  updateCrawlStatus stTrig "c1" "downloading" none 1 true

/-- State after a trigger whose warehouse insert failed (local store). -/
def stLocalTrig : ServiceState := storeCrawlMetadata emptyState "c1" "snap1" 0 false

/-! ## Theorems -/

/-- Claim C1 (code bug): on three dictionary objects concatenated with no
whitespace, the concatenated-object tier recovers only the first two
records, not all three.  The scan advances with `idx += end_idx` although
`raw_decode` returns an absolute end index, so after the second decode
the offset jumps past the end of the input and the third object is
dropped. -/
theorem concat_scan_drops_third_object :
    parseBrightdataResponse concat3 =
      some [Json.obj [("a", Json.num 1)], Json.obj [("b", Json.num 2)]] ∧
    (parseBrightdataResponse concat3).map List.length = some 2 ∧
    (2 : Nat) ≠ 3 := by
  exact ⟨rfl, rfl, by decide⟩

/-- Loop lemma: when every attempt raises (the wired status check), the
loop tolerates the exception while `poll_count < max_polls - 3`, then
breaks with a single `polling_exception` failure at the first attempt
inside the final-three window. -/
theorem pollLoop_wired_raises (script : Nat → Attempt) (dlOk : Bool)
    (maxPolls : Nat) (hs : ∀ j, script j = Attempt.raised pollAttrError) :
    ∀ fuel pc, 1 ≤ fuel → maxPolls ≤ pc + fuel + 3 →
      pollLoop script dlOk maxPolls fuel pc =
        ([PollEvent.crawlFailed "polling_exception" pollAttrError],
          if maxPolls - 3 ≤ pc + 1 then pc + 1 else maxPolls - 3) := by
  intro fuel
  induction fuel with
  | zero => intro pc h1 _; omega
  | succ f ih =>
    intro pc _ hfuel
    rw [show pollLoop script dlOk maxPolls (f + 1) pc =
        (if maxPolls - 3 ≤ pc + 1 then
          ([PollEvent.crawlFailed "polling_exception" pollAttrError], pc + 1)
        else pollLoop script dlOk maxPolls f (pc + 1)) by
      simp [pollLoop, hs (pc + 1)]]
    by_cases hcase : maxPolls - 3 ≤ pc + 1
    · rw [if_pos hcase, if_pos hcase]
    · rw [if_neg hcase, if_neg hcase]
      rw [ih (pc + 1) (by omega) (by omega)]
      refine congrArg (Prod.mk _) ?_
      split <;> omega

/-- Claim C2 counterexample: with budget 10 and a provider whose status
endpoint would report transient errors on attempts 1..8 (= budget − 2)
and readiness from attempt 9 (= budget − 1), the background run does not
reach completed: the loop's status check raises `AttributeError` on every
attempt (the wired client has no `poll_crawl_status`), the provider is
never observed, and the run fails with stage `polling_exception` at
attempt 7 (= budget − 3). -/
theorem claimed_completion_never_happens_cex :
    backgroundPollRun true claimedProviderScript true 10 =
      [PollEvent.crawlFailed "polling_exception" pollAttrError] ∧
    backgroundPollRun true claimedProviderScript true 10 ≠
      [PollEvent.ingestionCompleted] := by
  exact ⟨by decide, by decide⟩

/-- Claim C2 (amended): in every background run with metadata present the
status check raises on every attempt (the wired provider client lacks
`poll_crawl_status`), so no provider reply is ever observed; these
exceptions are tolerated on attempts 1..(budget − 4) and escalated only
within the final three attempts of the budget — the loop stops with a
single `polling_exception` failure at attempt budget − 3 — and no run
reaches completed, whatever the provider's state. -/
theorem poll_check_raises_and_escalates_late
    (providerScript : Nat → ProviderPollReply) (dlOk : Bool) (maxPolls : Nat)
    (h4 : 4 ≤ maxPolls) :
    (∀ j, wiredPollAttempt true (providerScript j) =
      Attempt.raised pollAttrError) ∧
    pollLoop (fun k => wiredPollAttempt true (providerScript k)) dlOk maxPolls
        maxPolls 0 =
      ([PollEvent.crawlFailed "polling_exception" pollAttrError],
        maxPolls - 3) ∧
    PollEvent.ingestionCompleted ∉
      backgroundPollRun true providerScript dlOk maxPolls := by
  have hloop := pollLoop_wired_raises
    (fun k => wiredPollAttempt true (providerScript k)) dlOk maxPolls
    (fun _ => rfl) maxPolls 0 (by omega) (by omega)
  have hstop : (if maxPolls - 3 ≤ 0 + 1 then 0 + 1 else maxPolls - 3) =
      maxPolls - 3 := by split <;> omega
  rw [hstop] at hloop
  refine ⟨fun _ => rfl, hloop, ?_⟩
  simp only [backgroundPollRun, backgroundPollAndDownload, hloop]
  rw [if_neg (by omega)]
  simp

/-- Witness for the amended C2 theorem at budget 10 with a provider that
is ready from the first attempt on — the run still never completes. -/
theorem poll_check_raises_and_escalates_late_witness :
    4 ≤ 10 ∧
    pollLoop
        (fun k => wiredPollAttempt true
          ((fun _ => ProviderPollReply.readyReply) k)) true 10 10 0 =
      ([PollEvent.crawlFailed "polling_exception" pollAttrError], 7) :=
  ⟨by decide,
    (poll_check_raises_and_escalates_late
      (fun _ => ProviderPollReply.readyReply) true 10 (by decide)).2.1⟩

/-- Claim C3 (code bug): the loop contains the `polling_timeout` publish
for budget exhaustion, but it is unreachable for any budget of at least
two attempts: because the status check raises `AttributeError` on every
attempt, a run whose provider never reports readiness breaks with a
`polling_exception` failure at attempt budget − 3 (attempt 1 for budgets
up to 4), with `poll_count < max_polls`, so no `polling_timeout` event is
ever published. -/
theorem budget_exhaustion_yields_polling_exception
    (providerScript : Nat → ProviderPollReply) (dlOk : Bool) (maxPolls : Nat)
    (h2 : 2 ≤ maxPolls) :
    backgroundPollRun true providerScript dlOk maxPolls =
      [PollEvent.crawlFailed "polling_exception" pollAttrError] ∧
    (∀ m, PollEvent.crawlFailed "polling_timeout" m ∉
      backgroundPollRun true providerScript dlOk maxPolls) := by
  have hloop := pollLoop_wired_raises
    (fun k => wiredPollAttempt true (providerScript k)) dlOk maxPolls
    (fun _ => rfl) maxPolls 0 (by omega) (by omega)
  have hrun : backgroundPollRun true providerScript dlOk maxPolls =
      [PollEvent.crawlFailed "polling_exception" pollAttrError] := by
    simp only [backgroundPollRun, backgroundPollAndDownload, hloop]
    rw [if_neg (by split <;> omega)]
    simp
  refine ⟨hrun, fun m hm => ?_⟩
  rw [hrun] at hm
  simp only [List.mem_singleton] at hm
  have : ("polling_timeout" : String) = "polling_exception" :=
    congrArg (fun e => match e with
      | PollEvent.crawlFailed s _ => s
      | PollEvent.ingestionCompleted => "") hm
  exact absurd this (by decide)

/-- Witness for the C3 theorem at budget 10 with an always-pending
provider (the claim's exhaustion-without-readiness scenario). -/
theorem budget_exhaustion_yields_polling_exception_witness :
    2 ≤ 10 ∧
    backgroundPollRun true (fun _ => ProviderPollReply.pendingReply) true 10 =
      [PollEvent.crawlFailed "polling_exception" pollAttrError] :=
  ⟨by decide,
    (budget_exhaustion_yields_polling_exception
      (fun _ => ProviderPollReply.pendingReply) true 10 (by decide)).1⟩

/-- Claim C4 (code bug): status updates only ever append rows, but the
metadata read does not return the most-recently-timestamped row.  After a
`triggered` row at time 0 and a `completed` row at time 1 for the same
crawl, the latest-event projection says `completed` while
`_get_crawl_metadata`'s `LIMIT 1` query (which has no ORDER BY) can
return the stale `triggered` row. -/
theorem metadata_read_ignores_latest_status :
    (latestRow stDone.table "c1").map MetaRow.status = some "completed" ∧
    (getCrawlMetadata stDone "c1").map CrawlMetaView.status =
      some (some "triggered") ∧
    stDone.table = stTrig.table ++
      [{ crawlId := "c1", snapshotId := syntheticSnapshotId 1
       , status := "completed", createdAt := 1, errorMessage := none }] ∧
    ("triggered" : String) ≠ "completed" := by
  exact ⟨rfl, rfl, rfl, by decide⟩

/-- Claim C5 (code bug): for a provider job whose state is `running`
(not ready), the BrightData adapter's download operation still returns
the payload served by the snapshot endpoint instead of failing, while the
Apify adapter re-checks the run status and fails. -/
theorem brightdata_download_skips_readiness :
    brightdataIsReady "running" = false ∧
    brightdataDownloadData "running" true jsonlBody =
      DownloadOutcome.payload [Json.obj [("a", Json.num 1)]] ∧
    apifyDownloadData "RUNNING" (some "ds1") [Json.obj [("a", Json.num 1)]] =
      DownloadOutcome.clientError
        "Job not completed yet. Current status: RUNNING" := by
  exact ⟨by decide, rfl, rfl⟩

/-- Claim C6: when every tier recovers zero records, `parse` reports total
failure (it is a total function, so no exception escapes), returns no
records at all, and the caller stores the raw payload for offline
inspection together with its content, its length, and the brace-balance
diagnostic. -/
theorem total_parse_failure_preserves_payload (sid : String) (s : List Char)
    (h1 : tierWholeDoc s = none) (h2 : tierConcatScan s = [])
    (h3 : tierJsonLines s = []) (h4 : tierPrefixTrim s = none) :
    parseBrightdataResponse s = none ∧
    downloadSnapshotBody sid s =
      (SnapshotResult.err "Failed to parse BrightData response as JSON",
        some { snapshotId := sid, content := s, length := s.length
             , containsConcat := hasBraceConcat s
             , balancedBraces := countChar s lbrace == countChar s rbrace }) := by
  have hp : parseBrightdataResponse s = none := by
    simp [parseBrightdataResponse, h1, h2, h3, h4]
  refine ⟨hp, ?_⟩
  simp [downloadSnapshotBody, hp, storeFailedResponseForDebug]

/-- Witness for C6 on a payload of pure noise. -/
theorem total_parse_failure_preserves_payload_witness :
    tierWholeDoc noisePayload = none ∧ tierConcatScan noisePayload = [] ∧
    tierJsonLines noisePayload = [] ∧ tierPrefixTrim noisePayload = none ∧
    parseBrightdataResponse noisePayload = none :=
  ⟨rfl, rfl, rfl, rfl,
    (total_parse_failure_preserves_payload "snap1" noisePayload
      rfl rfl rfl rfl).1⟩

/-- Claim C7 counterexample: after a trigger whose metadata insert went to
the warehouse (so the local store has no entry for the crawl), the status
row appended by the next update carries the synthetic placeholder id
`status_update_1`, not the external id `snap1` stored at trigger time. -/
theorem status_row_synthetic_external_id_cex :
    stTrig.table.map MetaRow.snapshotId = ["snap1"] ∧
    stDownloading.table.map MetaRow.snapshotId = ["snap1", "status_update_1"] ∧
    ("status_update_1" : String) ≠ "snap1" := by
  exact ⟨rfl, rfl, by decide⟩

/-- Claim C7 (amended): the external id is assigned at trigger time and
never reassigned — a status update never changes the snapshot id of any
existing local-store entry — and a status row carries the trigger-stored
external id whenever the job's metadata is present in the local store;
when it is not, the row carries a synthetic placeholder id instead. -/
theorem external_id_stable_when_locally_stored (st : ServiceState)
    (cid status : String) (err : Option String) (ts : Nat) (bq : Bool) :
    (∀ cid2 m, lookupLocal st.localStore cid2 = some m →
      ∃ m2, lookupLocal (updateCrawlStatus st cid status err ts bq).localStore
          cid2 = some m2 ∧ m2.snapshotId = m.snapshotId) ∧
    (∀ m s, lookupLocal st.localStore cid = some m → m.snapshotId = some s →
      (updateCrawlStatus st cid status err ts true).table = st.table ++
        [{ crawlId := cid, snapshotId := s, status := status, createdAt := ts
         , errorMessage := err }]) := by
  constructor
  · intro cid2 m hm
    have key : ∀ ls : List (String × LocalMeta),
        lookupLocal ls cid2 = some m →
        ∃ m2, lookupLocal (setLocalStatus ls cid status err) cid2 = some m2 ∧
          m2.snapshotId = m.snapshotId := by
      intro ls
      induction ls with
      | nil => intro h; simp [lookupLocal] at h
      | cons p rest ih =>
        obtain ⟨k, v⟩ := p
        intro h
        by_cases hk : k = cid
        · subst hk
          simp only [setLocalStatus, if_pos rfl]
          by_cases hk2 : k = cid2
          · subst hk2
            simp only [lookupLocal, if_pos rfl] at h ⊢
            exact ⟨_, rfl, by rw [← Option.some_inj.mp h]⟩
          · simp only [lookupLocal, if_neg hk2] at h ⊢
            exact ⟨m, h, rfl⟩
        · simp only [setLocalStatus, if_neg hk]
          by_cases hk2 : k = cid2
          · subst hk2
            simp only [lookupLocal, if_pos rfl] at h ⊢
            exact ⟨v, rfl, by rw [← Option.some_inj.mp h]⟩
          · simp only [lookupLocal, if_neg hk2] at h ⊢
            exact ih h
    exact key st.localStore hm
  · intro m s hm hs
    simp [updateCrawlStatus, hm, hs]

/-- Witness for the amended C7 theorem: a trigger that fell back to the
local store, followed by a status update. -/
theorem external_id_stable_when_locally_stored_witness :
    lookupLocal stLocalTrig.localStore "c1" =
      some { snapshotId := some "snap1", status := some "triggered"
           , errorMessage := none } ∧
    (∃ m2, lookupLocal
        (updateCrawlStatus stLocalTrig "c1" "downloading" none 1 true).localStore
        "c1" = some m2 ∧ m2.snapshotId = some "snap1") ∧
    (updateCrawlStatus stLocalTrig "c1" "downloading" none 1 true).table =
      stLocalTrig.table ++
        [{ crawlId := "c1", snapshotId := "snap1", status := "downloading"
         , createdAt := 1, errorMessage := none }] := by
  refine ⟨rfl, ?_, ?_⟩
  · obtain ⟨m2, hl, he⟩ :=
      (external_id_stable_when_locally_stored stLocalTrig "c1" "downloading"
        none 1 true).1 "c1" _ rfl
    exact ⟨m2, hl, by rw [he]⟩
  · exact (external_id_stable_when_locally_stored stLocalTrig "c1" "downloading"
      none 1 true).2 _ "snap1" rfl rfl

/-- Claim C8: the status endpoint is observational — it leaves the
service state (warehouse rows and local store) unchanged and publishes no
event, for every state, crawl id and provider reply. -/
theorem get_crawl_status_is_observational (st : ServiceState) (cid : String)
    (reply : ProviderPollReply) :
    (getCrawlStatus st cid reply).2.1 = st ∧
    (getCrawlStatus st cid reply).2.2 = [] := by
  cases hm : getCrawlMetadata st cid with
  | none => simp [getCrawlStatus, hm]
  | some mv =>
    cases hs : mv.snapshotId with
    | none => simp [getCrawlStatus, hm, hs]
    | some sid => cases reply <;> simp [getCrawlStatus, hm, hs]

/-- Claim C9 counterexample: TikTok's extraction raises (models as
`none`) on a record whose `videoMeta` is a truthy non-dictionary, and
Facebook's reports one media item, not a zero-media result, for an
attachments list whose single element is not a dictionary. -/
theorem extract_media_info_raises_cex :
    tiktokExtractMediaInfo (Json.obj [("videoMeta", Json.num 5)]) = none ∧
    facebookExtractMediaInfo
        (Json.obj [("attachments", Json.arr [Json.num 7])]) =
      createMediaInfo true 1 [] ∧
    (1 : Nat) ≠ 0 := by
  exact ⟨rfl, rfl, by decide⟩

/-- Claim C9 (amended): Facebook's extraction never raises and yields a
zero-media result whenever `attachments` is absent, empty, or not a list
(though a non-empty list of non-dictionary elements still counts as
media); TikTok's yields a zero-media result when `videoMeta` is absent or
an empty dictionary, but raises whenever `videoMeta` holds a
non-dictionary value. -/
theorem extract_media_info_guarantees :
    (∀ fs, attachmentsNonEmptyList fs = false →
      facebookExtractMediaInfo (Json.obj fs) = createMediaInfo false 0 []) ∧
    (∀ fs, videoMetaMissingOrEmpty fs = true →
      (tiktokExtractMediaInfo (Json.obj fs)).map
        (fun v => (v.hasMedia, v.mediaCount, v.mediaTypes)) =
        some (false, 0, [])) ∧
    (∀ fs, videoMetaNonDict fs = true →
      tiktokExtractMediaInfo (Json.obj fs) = none) := by
  refine ⟨?_, ?_, ?_⟩
  · intro fs h
    unfold attachmentsNonEmptyList at h
    have hred : facebookExtractMediaInfo (Json.obj fs) =
        (match (dictGet fs "attachments").getD (Json.arr []) with
         | Json.arr [] => createMediaInfo false 0 []
         | Json.arr (x :: xs) =>
           createMediaInfo true (x :: xs).length
             (List.filterMap attachmentTypeOf (x :: xs))
         | _ => createMediaInfo false 0 []) := rfl
    rw [hred]
    cases hval : (dictGet fs "attachments").getD (Json.arr [])
    case arr elems =>
      cases elems with
      | nil => rfl
      | cons x xs => rw [hval] at h; exact Bool.noConfusion h
    all_goals rfl
  · intro fs h
    unfold videoMetaMissingOrEmpty at h
    unfold tiktokExtractMediaInfo
    cases hvm : dictGet fs "videoMeta" with
    | none => simp [hvm, truthy]
    | some v =>
      rw [hvm] at h
      cases v <;> simp_all [truthy]
  · intro fs h
    unfold videoMetaNonDict at h
    unfold tiktokExtractMediaInfo
    cases hvm : dictGet fs "videoMeta" with
    | none => rw [hvm] at h; simp at h
    | some v =>
      rw [hvm] at h
      cases v <;> simp_all [isDict]

/-- Witness for the amended C9 theorem at concrete records. -/
theorem extract_media_info_guarantees_witness :
    attachmentsNonEmptyList [] = false ∧
    facebookExtractMediaInfo (Json.obj []) = createMediaInfo false 0 [] ∧
    videoMetaMissingOrEmpty [] = true ∧
    (tiktokExtractMediaInfo (Json.obj [])).map
      (fun v => (v.hasMedia, v.mediaCount, v.mediaTypes)) =
      some (false, 0, []) ∧
    videoMetaNonDict [("videoMeta", Json.str "x")] = true ∧
    tiktokExtractMediaInfo (Json.obj [("videoMeta", Json.str "x")]) = none :=
  ⟨rfl, extract_media_info_guarantees.1 [] rfl, rfl,
    extract_media_info_guarantees.2.1 [] rfl, rfl,
    extract_media_info_guarantees.2.2 [("videoMeta", Json.str "x")] rfl⟩

/-- Claim C10: `trigger_crawl` always returns a structured result whose
status is `success` or `error` and which carries the generated crawl id;
when the named platform has no registered handler, or the handler's
validation rejects the parameters, the result is an error that still
carries the crawl id and the provider trigger endpoint is never
invoked. -/
theorem trigger_crawl_error_paths (cid : String)
    (params : List (String × Json)) (provider : ProviderReply) :
    ((triggerCrawl cid params provider).1.status = "success" ∨
      (triggerCrawl cid params provider).1.status = "error") ∧
    (triggerCrawl cid params provider).1.crawlId = cid ∧
    (∀ pname, dictGet params "platform" = some (Json.str pname) →
      getPlatformHandler (lowerStr pname) = none →
      (triggerCrawl cid params provider).1.status = "error" ∧
      (triggerCrawl cid params provider).2 = false) ∧
    (∀ pname h, dictGet params "platform" = some (Json.str pname) →
      getPlatformHandler (lowerStr pname) = some h →
      validateParams h params = some false →
      (triggerCrawl cid params provider).1.status = "error" ∧
      (triggerCrawl cid params provider).2 = false) := by
  have base : ((triggerCrawl cid params provider).1.status = "success" ∨
      (triggerCrawl cid params provider).1.status = "error") ∧
      (triggerCrawl cid params provider).1.crawlId = cid := by
    unfold triggerCrawl
    cases hdp : (dictGet params "platform").getD (Json.str "facebook") with
    | str s =>
      cases hg : getPlatformHandler (lowerStr s) with
      | none => simp [hg]
      | some h =>
        cases hv : validateParams h params with
        | none => simp [hg, hv]
        | some b =>
          cases b with
          | false => simp [hg, hv]
          | true => cases provider <;> simp [hg, hv]
    | null => simp
    | bool b => simp
    | num n => simp
    | arr a => simp
    | obj o => simp
  refine ⟨base.1, base.2, ?_, ?_⟩
  · intro pname hp hn
    unfold triggerCrawl
    rw [hp]
    simp [hn]
  · intro pname h hp hh hv
    unfold triggerCrawl
    rw [hp]
    simp [hh, hv]

/-- Witness for C10 at an unregistered platform name and at a Facebook
request with a TikTok URL (rejected by validation). -/
theorem trigger_crawl_error_paths_witness :
    dictGet [("platform", Json.str "myspace")] "platform" =
      some (Json.str "myspace") ∧
    getPlatformHandler (lowerStr "myspace") = none ∧
    (triggerCrawl "c1" [("platform", Json.str "myspace")]
        (ProviderReply.ok "s1")).1.status = "error" ∧
    (triggerCrawl "c1" [("platform", Json.str "myspace")]
        (ProviderReply.ok "s1")).2 = false ∧
    validateParams PlatformHandler.facebook
        [("platform", Json.str "facebook"),
         ("url", Json.str "https://tiktok.com/@x")] = some false ∧
    (triggerCrawl "c2"
        [("platform", Json.str "facebook"),
         ("url", Json.str "https://tiktok.com/@x")]
        (ProviderReply.ok "s2")).2 = false := by
  refine ⟨rfl, rfl, ?_, ?_, rfl, ?_⟩
  · exact ((trigger_crawl_error_paths "c1" [("platform", Json.str "myspace")]
      (ProviderReply.ok "s1")).2.2.1 "myspace" rfl rfl).1
  · exact ((trigger_crawl_error_paths "c1" [("platform", Json.str "myspace")]
      (ProviderReply.ok "s1")).2.2.1 "myspace" rfl rfl).2
  · exact ((trigger_crawl_error_paths "c2"
      [("platform", Json.str "facebook"),
       ("url", Json.str "https://tiktok.com/@x")]
      (ProviderReply.ok "s2")).2.2.2 "facebook" PlatformHandler.facebook
      rfl rfl rfl).2

end Ingest
